import Mathlib

/-!
Shallow embedding of the Doc2Pdf conversion core (bot_types.py, sessions.py,
image_converter.py, pdf_tools.py, telegram_bot.py command handlers).

The filesystem is modelled as a `List String` of existing paths; external
effects that can fail (PIL compression, the PDF write, `os.unlink`) are
modelled by explicit oracles passed as parameters, so every definition is a
total executable function.
-/

namespace Doc2Pdf

/-- bot_types.py: `CompressionLevel` enum with values "high"/"medium"/"low". -/
inductive CompressionLevel where
  | HIGH
  | MEDIUM
  | LOW
deriving DecidableEq, Repr

/-- bot_types.py: the `.value` of each enum member. -/
def CompressionLevel.value : CompressionLevel → String
  | .HIGH => "high"
  | .MEDIUM => "medium"
  | .LOW => "low"

/-- bot_types.py lines 16-23: `CompressionLevel.quality` property,
a dictionary lookup keyed by the member itself, total over the enum. -/
def CompressionLevel.quality : CompressionLevel → Nat
  | .HIGH => 95
  | .MEDIUM => 85
  | .LOW => 70

/-- bot_types.py: `Language` enum (supported locales). -/
inductive Language where
  | EN
  | DE
  | FA
deriving DecidableEq, Repr

/-- image_converter.py line 20: `SUPPORTED_FORMATS`. -/
def SUPPORTED_FORMATS : List String :=
  [".jpg", ".jpeg", ".png", ".bmp", ".tiff", ".gif", ".webp"]

/-- image_converter.py lines 21-25: `COMPRESSION_QUALITY` dictionary. -/
def COMPRESSION_QUALITY : List (String × Nat) :=
  [("high", 95), ("medium", 85), ("low", 70)]

/-- Python `str.lower()` restricted to ASCII, character by character (all
paths handled by the bot are ASCII temp paths). -/
def lower_str (p : String) : String :=
  String.mk (p.data.map Char.toLower)

/-- `os.path.basename`: the part of the path after the last slash. -/
def path_basename (p : String) : String :=
  String.mk ((p.data.reverse.takeWhile (fun c => c != '/')).reverse)

/-- The extension component of `os.path.splitext` applied to a file name:
leading dots of the basename never start an extension; otherwise the
extension runs from the last dot to the end (empty when there is no dot). -/
def splitext_ext (p : String) : String :=
  let cs := (path_basename p).data
  let rest := cs.drop ((cs.takeWhile (fun c => c == '.')).length)
  let r := rest.reverse
  let afterDot := r.takeWhile (fun c => c != '.')
  if afterDot.length == r.length then "" else String.mk ('.' :: afterDot.reverse)

/-- `os.path.splitext(os.path.basename(p))[0]`: basename with the extension
removed. -/
def base_name (p : String) : String :=
  let n := (path_basename p).data
  String.mk (n.take (n.length - (splitext_ext p).data.length))

/-- image_converter.py lines 90-93: `is_supported_format` lowercases the path,
takes its extension and tests membership in the supported set. -/
def is_supported_format (file_path : String) : Bool :=
  SUPPORTED_FORMATS.contains (splitext_ext (lower_str file_path))

/-- Python `s.replace('.', '_compressed.')` specialised to the single-character
pattern used at image_converter.py line 74: every dot is replaced. -/
def replace_dot (rep : List Char) : List Char → List Char
  | [] => []
  | c :: cs => if c == '.' then rep ++ replace_dot rep cs else c :: replace_dot rep cs

/-- image_converter.py line 74: the temp path of the compressed copy,
`image_path.replace('.', '_compressed.')`. -/
def compressed_name (p : String) : String :=
  String.mk (replace_dot "_compressed.".data p.data)

/-- image_converter.py lines 54-88: `compress_image`. The quality key is
normalised to "medium" when unrecognised; the whole PIL pipeline (open,
convert, save at the looked-up JPEG quality, write the temp file) is
abstracted by the oracle `ok path jpegQuality`; on any exception the original
path is returned unchanged (the `except` clause at lines 86-88). -/
def compress_image (ok : String → Nat → Bool) (image_path : String)
    (quality : String) : String :=
  let q := if (COMPRESSION_QUALITY.lookup quality).isSome then quality else "medium"
  let qv := (COMPRESSION_QUALITY.lookup q).getD 85
  if ok image_path qv then compressed_name image_path else image_path

/-- image_converter.py lines 109-175: `convert_single_image` over a filesystem
`fs` (list of existing paths). Raised exceptions become `.error` values
carrying the Python message. `ok` abstracts the PIL compression step
(see `compress_image`) and `writeOk` the img2pdf encode/write step. On the
success path the compressed intermediate, when one was created, is deleted
(line 151-152); on the write-failure path the same cleanup runs inside
`try/except: pass` before the exception is re-raised (lines 167-175). -/
def convert_single_image (ok : String → Nat → Bool) (writeOk : Bool)
    (fs : List String) (image_path : String) (output_path : Option String)
    (compress : Option String) : Except String String × List String :=
  if !(fs.contains image_path) then
    (.error ("Image file not found: " ++ image_path), fs)
  else if !(is_supported_format image_path) then
    (.error ("Unsupported image format: " ++ image_path), fs)
  else
    let out := output_path.getD (base_name image_path ++ ".pdf")
    let working := match compress with
      | some q => compress_image ok image_path q
      | none => image_path
    let fs1 := if working != image_path then working :: fs else fs
    if writeOk then
      let fs2 := out :: fs1
      let fs3 := if compress.isSome && working != image_path
        then fs2.filter (fun x => x != working) else fs2
      (.ok out, fs3)
    else
      let fs3 := if compress.isSome && working != image_path
        then fs1.filter (fun x => x != working) else fs1
      (.error ("Error converting " ++ image_path ++ " to PDF"), fs3)

/-- image_converter.py lines 229-233 and 249-256: the cleanup pass of
`convert_multiple_images`. The guard compares each working path against the
Python variable `img_path`, which after the processing loop still holds the
LAST element of `image_paths`, and against `os.path.exists`. -/
def multi_cleanup (working : List String) (last_img : String)
    (fs : List String) : List String :=
  working.foldl
    (fun acc cp =>
      if cp != last_img && acc.contains cp then acc.filter (fun x => x != cp)
      else acc)
    fs

/-- image_converter.py lines 177-257: `convert_multiple_images` over a
filesystem `fs0`. Validation checks existence then format for each input in
order (lines 193-197); each requested compression that succeeds creates the
compressed temp file on disk; a single PDF write (abstracted by `writeOk`)
follows; the cleanup pass `multi_cleanup` runs on both the success path and
the exception path before returning. -/
def convert_multiple_images (ok : String → Nat → Bool) (writeOk : Bool)
    (fs0 : List String) (image_paths : List String) (output_path : Option String)
    (compress : Option String) : Except String String × List String :=
  if image_paths.isEmpty then (.error "No image paths provided", fs0)
  else
    match image_paths.find? (fun p => !(fs0.contains p) || !(is_supported_format p)) with
    | some p =>
      if fs0.contains p then (.error ("Unsupported image format: " ++ p), fs0)
      else (.error ("Image file not found: " ++ p), fs0)
    | none =>
      let out := output_path.getD "combined_images.pdf"
      let step : List String × List String → String → List String × List String :=
        fun acc p =>
          match compress with
          | some q =>
            let wp := compress_image ok p q
            ((if wp != p then wp :: acc.1 else acc.1), acc.2 ++ [wp])
          | none => (acc.1, acc.2 ++ [p])
      let st := image_paths.foldl step (fs0, [])
      let last_img := image_paths.getLastD ""
      let fs2 := if writeOk then out :: st.1 else st.1
      let fsFinal := if compress.isSome then multi_cleanup st.2 last_img fs2 else fs2
      (if writeOk then .ok out else .error "Error converting images to PDF", fsFinal)

/-- sessions.py lines 14-21: `UserSession` state. -/
structure UserSession where
  user_id : Nat
  temp_files : List String
  compression_setting : CompressionLevel
  pdf_files : List String
  language : Language
deriving Repr

/-- sessions.py `__init__`: fresh session with empty ledgers, MEDIUM
compression and the first locale. -/
def UserSession.init (uid : Nat) : UserSession :=
  ⟨uid, [], .MEDIUM, [], .EN⟩

/-- sessions.py line 39: `get_file_count`. -/
def UserSession.get_file_count (s : UserSession) : Nat := s.temp_files.length

/-- sessions.py line 56: `get_pdf_count`. -/
def UserSession.get_pdf_count (s : UserSession) : Nat := s.pdf_files.length

/-- sessions.py line 25: `add_temp_file`. -/
def UserSession.add_temp_file (s : UserSession) (p : String) : UserSession :=
  { s with temp_files := s.temp_files ++ [p] }

/-- sessions.py line 43: `add_pdf_file`. -/
def UserSession.add_pdf_file (s : UserSession) (p : String) : UserSession :=
  { s with pdf_files := s.pdf_files ++ [p] }

/-- One iteration of the deletion loops of sessions.py lines 29-34 and 47-51:
`os.unlink(file_path)` inside `try/except`. The oracle `fails p` says whether
the unlink of `p` raises; a raising unlink is caught and leaves the disk
unchanged, a successful one removes the path. -/
def unlink_attempt (fails : String → Bool) (fs : List String) (p : String) :
    List String :=
  if fails p then fs else fs.filter (fun x => x != p)

/-- sessions.py lines 27-35: `clear_temp_files` — attempt to unlink every
registered path (failures caught per path), then unconditionally clear the
list. Returns the new session and the new filesystem. -/
def UserSession.clear_temp_files (s : UserSession) (fs : List String)
    (fails : String → Bool) : UserSession × List String :=
  ({ s with temp_files := [] }, s.temp_files.foldl (unlink_attempt fails) fs)

/-- sessions.py lines 45-52: `clear_pdf_files`, same shape as
`clear_temp_files`. -/
def UserSession.clear_pdf_files (s : UserSession) (fs : List String)
    (fails : String → Bool) : UserSession × List String :=
  ({ s with pdf_files := [] }, s.pdf_files.foldl (unlink_attempt fails) fs)

/-- telegram_bot.py lines 466-512: `convert_now_command`. When no inputs are
pending the handler replies and returns without touching the session;
otherwise the whole conversion attempt (debug or normal, single or multi,
success, failure result or raised exception — all caught at line 506) is
abstracted by `conv`, a function from the pending inputs, the compression
setting and the filesystem to the filesystem after the attempt; the
`finally` block then runs `clear_temp_files`. -/
def convert_now_command (s : UserSession) (fs : List String)
    (fails : String → Bool)
    (conv : List String → CompressionLevel → List String → List String) :
    UserSession × List String :=
  if s.get_file_count = 0 then (s, fs)
  else s.clear_temp_files (conv s.temp_files s.compression_setting fs) fails

/-- telegram_bot.py lines 514-534: `merge_pdfs_command`. Early return when no
PDFs are pending; otherwise the try-block (merge plus delivery, any outcome)
is abstracted by `op` acting on the pending list and filesystem, and the
`finally` block runs `clear_pdf_files`. -/
def merge_pdfs_command (s : UserSession) (fs : List String)
    (fails : String → Bool) (op : List String → List String → List String) :
    UserSession × List String :=
  if s.get_pdf_count = 0 then (s, fs)
  else s.clear_pdf_files (op s.pdf_files fs) fails

/-- telegram_bot.py lines 536-558: `split_pdf_command`, same finally shape;
the try-block acts on the last pending PDF. -/
def split_pdf_command (s : UserSession) (fs : List String)
    (fails : String → Bool) (op : String → List String → List String) :
    UserSession × List String :=
  if s.get_pdf_count = 0 then (s, fs)
  else s.clear_pdf_files (op (s.pdf_files.getLastD "") fs) fails

/-- telegram_bot.py lines 560-581: `compress_pdf_command`, same finally
shape. -/
def compress_pdf_command (s : UserSession) (fs : List String)
    (fails : String → Bool) (op : String → List String → List String) :
    UserSession × List String :=
  if s.get_pdf_count = 0 then (s, fs)
  else s.clear_pdf_files (op (s.pdf_files.getLastD "") fs) fails

/-- telegram_bot.py lines 610-612: the OCR language chosen by
`ocr_pdf_command` — the literal `"eng"` unless `context.args` supplies one.
The session is in scope in the handler but its `language` field is not
consulted. -/
def ocr_pdf_language (_s : UserSession) (args : List String) : String :=
  match args with
  | [] => "eng"
  | a :: _ => a

/-- telegram_bot.py lines 637-640: the OCR language chosen by
`ocr_image_command`, identical selection (comment in source:
"Default to English if no language specified"). -/
def ocr_image_language (_s : UserSession) (args : List String) : String :=
  match args with
  | [] => "eng"
  | a :: _ => a

/-- telegram_bot.py lines 603-628: `ocr_pdf_command`. Early return when no
PDFs are pending; the try-block (OCR on the last pending PDF at the chosen
language plus delivery, any outcome) is abstracted by `op`; the `finally`
block runs `clear_pdf_files`. -/
def ocr_pdf_command (s : UserSession) (fs : List String)
    (fails : String → Bool) (args : List String)
    (op : String → String → List String → List String) :
    UserSession × List String :=
  if s.get_pdf_count = 0 then (s, fs)
  else s.clear_pdf_files (op (ocr_pdf_language s args) (s.pdf_files.getLastD "") fs) fails

/-- A PDF page, abstract token. -/
abbrev Page := Nat

/-- pdf_tools.py lines 14-30: `merge_pdfs`. `readPdf` abstracts
`PdfReader(path).pages`; the writer starts empty and the nested loops append
every page of every input in list order; empty input raises `ValueError`. -/
def merge_pdfs (readPdf : String → List Page) (pdf_paths : List String)
    (output_path : Option String) : Except String (String × List Page) :=
  if pdf_paths.isEmpty then .error "No PDF files provided"
  else
    let out := output_path.getD "merged.pdf"
    .ok (out, pdf_paths.foldl (fun acc p => acc ++ readPdf p) [])

/-- pdf_tools.py line 77: output name of a range split,
`f"..._start-end.pdf"`. -/
def split_range_name (out_pre : String) (s e : Int) : String :=
  out_pre ++ "_" ++ toString s ++ "-" ++ toString e ++ ".pdf"

/-- pdf_tools.py lines 74-76: the pages written for a valid 1-based inclusive
range, `reader.pages[start-1 .. end-1]`. -/
def range_pages (pages : List Page) (s e : Int) : List Page :=
  (pages.drop (s - 1).toNat).take (e - s + 1).toNat

/-- pdf_tools.py lines 71-82: the explicit-ranges loop of `split_pdf`.
Ranges are checked in order against `start < 1 or end > total_pages or
start > end`; the first violation raises `ValueError` (returned here as the
`some` message) and the output files already written stay; valid ranges each
write one output appended to the accumulator. -/
def split_ranges (pages : List Page) (out_pre : String) :
    List (Int × Int) → List (String × List Page) →
    List (String × List Page) × Option String
  | [], outputs => (outputs, none)
  | (s, e) :: rest, outputs =>
    if s < 1 || e > (pages.length : Int) || s > e then
      (outputs, some ("Invalid page range: " ++ toString s ++ "-" ++ toString e
        ++ " (total pages: " ++ toString pages.length ++ ")"))
    else
      split_ranges pages out_pre rest
        (outputs ++ [(split_range_name out_pre s e, range_pages pages s e)])

/-- pdf_tools.py lines 60-69: the default mode of `split_pdf` — one
single-page output per page, named `f"..._page_i+1.pdf"`, built by the loop
over `range(total_pages)`. -/
def split_per_page (pages : List Page) (out_pre : String) :
    List (String × List Page) :=
  (List.range pages.length).foldl
    (fun outs i =>
      outs ++ [(out_pre ++ "_page_" ++ toString (i + 1) ++ ".pdf", [pages.getD i 0])])
    []

/-- pdf_tools.py lines 47-82: `split_pdf` over the pages of an existing PDF
(`PdfReader` abstracted away; the existence check of line 49 is outside this
model). Python's `if not page_ranges` treats both `None` and `[]` as the
per-page mode. Returns the outputs written and the `ValueError` message when
a range was invalid. -/
def split_pdf (pages : List Page) (out_pre : String)
    (page_ranges : Option (List (Int × Int))) :
    List (String × List Page) × Option String :=
  match page_ranges with
  | none => (split_per_page pages out_pre, none)
  | some rs =>
    if rs.isEmpty then (split_per_page pages out_pre, none)
    else split_ranges pages out_pre rs []

/-- Substring test on character lists: `strContains hay needle` is true when
`needle` occurs contiguously inside `hay`. -/
def strContains (hay needle : List Char) : Bool :=
  match hay with
  | [] => needle.isEmpty
  | _ :: t => needle.isPrefixOf hay || strContains t needle

/-! ### Helper lemmas -/

/-- A path absent from the disk stays absent through a run of unlink
attempts. -/
theorem not_mem_foldl_unlink (fails : String → Bool) (x : String) :
    ∀ (l : List String) (fs : List String), x ∉ fs →
      x ∉ l.foldl (unlink_attempt fails) fs := by
  intro l
  induction l with
  | nil => intro fs h; simpa using h
  | cons a t ih =>
    intro fs h
    rw [List.foldl_cons]
    refine ih _ ?_
    by_cases hf : fails a
    · simpa [unlink_attempt, hf] using h
    · simp only [unlink_attempt, hf, if_neg, Bool.false_eq_true, reduceIte]
      intro hx
      exact h (List.mem_filter.mp hx).1

/-- Every registered path whose unlink does not fail is gone from the disk
after the deletion loop, regardless of which other unlinks fail. -/
theorem mem_list_not_mem_foldl_unlink (fails : String → Bool) (x : String) :
    ∀ (l : List String) (fs : List String), x ∈ l → fails x = false →
      x ∉ l.foldl (unlink_attempt fails) fs := by
  intro l
  induction l with
  | nil => intro fs h; cases h
  | cons a t ih =>
    intro fs hx hf
    rcases List.mem_cons.mp hx with rfl | hx
    · rw [List.foldl_cons]
      refine not_mem_foldl_unlink fails x t _ ?_
      simp only [unlink_attempt, hf, Bool.false_eq_true, reduceIte]
      intro hmem
      have := (List.mem_filter.mp hmem).2
      simp at this
    · exact ih _ hx hf

/-- Folding appends of singletons over a list is the map of the body. -/
theorem foldl_append_singleton {α β : Type} (f : α → β) :
    ∀ (l : List α) (acc : List β),
      l.foldl (fun o a => o ++ [f a]) acc = acc ++ l.map f := by
  intro l
  induction l with
  | nil => intro acc; simp
  | cons a t ih => intro acc; simp [ih, List.append_assoc]

/-- Folding list-appends over a list concatenates the mapped lists. -/
theorem foldl_append_flat {α β : Type} (f : α → List β) :
    ∀ (l : List α) (acc : List β),
      l.foldl (fun o a => o ++ f a) acc = acc ++ (l.map f).flatten := by
  intro l
  induction l with
  | nil => intro acc; simp
  | cons a t ih => intro acc; simp [ih, List.append_assoc]

/-! ### Claim theorems -/

/-- C1: after every conversion attempt (`convert_now_command`, any outcome of
the attempt `conv`) the pending-inputs list is empty, and after every
merge/split/compress/OCR PDF-tool command (any outcome of the try-block) the
pending-PDFs list is empty; no pending entry survives past the attempt. -/
theorem c1_pending_cleared (s : UserSession) (fs : List String)
    (fails : String → Bool)
    (conv : List String → CompressionLevel → List String → List String)
    (opm : List String → List String → List String)
    (ops opc : String → List String → List String)
    (args : List String) (opo : String → String → List String → List String) :
    (convert_now_command s fs fails conv).1.temp_files = [] ∧
    (merge_pdfs_command s fs fails opm).1.pdf_files = [] ∧
    (split_pdf_command s fs fails ops).1.pdf_files = [] ∧
    (compress_pdf_command s fs fails opc).1.pdf_files = [] ∧
    (ocr_pdf_command s fs fails args opo).1.pdf_files = [] := by
  refine ⟨?_, ?_, ?_, ?_, ?_⟩
  · unfold convert_now_command
    split
    · next h => exact List.length_eq_zero.mp h
    · rfl
  · unfold merge_pdfs_command
    split
    · next h => exact List.length_eq_zero.mp h
    · rfl
  · unfold split_pdf_command
    split
    · next h => exact List.length_eq_zero.mp h
    · rfl
  · unfold compress_pdf_command
    split
    · next h => exact List.length_eq_zero.mp h
    · rfl
  · unfold ocr_pdf_command
    split
    · next h => exact List.length_eq_zero.mp h
    · rfl

/-- C2: clearing a ledger attempts a deletion for every registered path (the
`fails` oracle is arbitrary, so one failing unlink never blocks the others);
every registered path whose own unlink does not fail is gone from disk; and
the ledger count is 0 afterwards regardless of how many deletions failed —
for both the pending-inputs ledger and the pending-PDFs ledger. -/
theorem c2_clear_all_empties_ledger (s : UserSession) (fs : List String)
    (fails : String → Bool) (p q : String)
    (hp : p ∈ s.temp_files) (hfp : fails p = false)
    (hq : q ∈ s.pdf_files) (hfq : fails q = false) :
    (s.clear_temp_files fs fails).1.get_file_count = 0 ∧
    p ∉ (s.clear_temp_files fs fails).2 ∧
    (s.clear_pdf_files fs fails).1.get_pdf_count = 0 ∧
    q ∉ (s.clear_pdf_files fs fails).2 := by
  refine ⟨rfl, ?_, rfl, ?_⟩
  · exact mem_list_not_mem_foldl_unlink fails p s.temp_files fs hp hfp
  · exact mem_list_not_mem_foldl_unlink fails q s.pdf_files fs hq hfq

/-- Witness for C2 at a concrete session: two registered inputs of which one
unlink is forced to fail, one registered PDF; the count still drops to 0 and
the non-failing paths are deleted. -/
theorem c2_clear_all_empties_ledger_witness :
    ((⟨1, ["bad.png", "a.png"], .MEDIUM, ["p.pdf"], .EN⟩ : UserSession).clear_temp_files
        ["bad.png", "a.png", "p.pdf"] (fun x => x == "bad.png")).1.get_file_count = 0 ∧
    "a.png" ∉ ((⟨1, ["bad.png", "a.png"], .MEDIUM, ["p.pdf"], .EN⟩ : UserSession).clear_temp_files
        ["bad.png", "a.png", "p.pdf"] (fun x => x == "bad.png")).2 ∧
    ((⟨1, ["bad.png", "a.png"], .MEDIUM, ["p.pdf"], .EN⟩ : UserSession).clear_pdf_files
        ["bad.png", "a.png", "p.pdf"] (fun x => x == "bad.png")).1.get_pdf_count = 0 ∧
    "p.pdf" ∉ ((⟨1, ["bad.png", "a.png"], .MEDIUM, ["p.pdf"], .EN⟩ : UserSession).clear_pdf_files
        ["bad.png", "a.png", "p.pdf"] (fun x => x == "bad.png")).2 :=
  c2_clear_all_empties_ledger ⟨1, ["bad.png", "a.png"], .MEDIUM, ["p.pdf"], .EN⟩
    ["bad.png", "a.png", "p.pdf"] (fun x => x == "bad.png") "a.png" "p.pdf"
    (by decide) (by decide) (by decide) (by decide)

/-- C8: the compression-level-to-quality mapping is the fixed constant
function HIGH↦95, MEDIUM↦85, LOW↦70, total over the closed three-element
enum, and the converter's string-keyed `COMPRESSION_QUALITY` table agrees
with it on every member's value. -/
theorem c8_quality_constants :
    CompressionLevel.HIGH.quality = 95 ∧
    CompressionLevel.MEDIUM.quality = 85 ∧
    CompressionLevel.LOW.quality = 70 ∧
    (∀ l : CompressionLevel, COMPRESSION_QUALITY.lookup l.value = some l.quality) ∧
    (∀ l : CompressionLevel, l = .HIGH ∨ l = .MEDIUM ∨ l = .LOW) := by
  refine ⟨rfl, rfl, rfl, ?_, ?_⟩
  · intro l; cases l <;> rfl
  · intro l; cases l <;> simp

/-- C9 counterexample: with no explicit language argument both OCR commands
use the literal `"eng"` whatever the session locale is, so no injective
locale-to-code correspondence can describe the default — the default is a
fixed constant, not derived from the user's locale. -/
theorem c9_counterexample :
    ocr_pdf_language { UserSession.init 1 with language := .DE } [] = "eng" ∧
    ocr_pdf_language { UserSession.init 1 with language := .FA } [] = "eng" ∧
    ocr_image_language { UserSession.init 1 with language := .DE } [] = "eng" ∧
    Language.DE ≠ Language.FA ∧
    ¬ ∃ code : Language → String, Function.Injective code ∧
        ∀ s : UserSession, ocr_pdf_language s [] = code s.language := by
  refine ⟨rfl, rfl, rfl, by decide, ?_⟩
  rintro ⟨code, hinj, hall⟩
  have h1 := hall { UserSession.init 1 with language := .DE }
  have h2 := hall { UserSession.init 1 with language := .FA }
  have : Language.DE = Language.FA := hinj (h1.symm.trans h2)
  cases this

/-- C9 amended: for every OCR operation invoked without an explicit language
argument the 3-letter code used is the fixed constant "eng", independent of
the invoking user's session locale; an explicitly supplied first argument is
used verbatim. -/
theorem c9_fixed_eng_default (s t : UserSession) (args : List String)
    (a : String) (rest : List String) :
    ocr_pdf_language s [] = "eng" ∧
    ocr_image_language s [] = "eng" ∧
    ocr_pdf_language s (a :: rest) = a ∧
    ocr_image_language s (a :: rest) = a ∧
    ocr_pdf_language s args = ocr_pdf_language t args ∧
    ocr_image_language s args = ocr_image_language t args := by
  cases args <;> exact ⟨rfl, rfl, rfl, rfl, rfl, rfl⟩

/-- C10: whenever the PIL compression step raises (the `ok` oracle is false
for the image at every JPEG quality), `compress_image` catches the exception
and returns the original path unchanged, and the single-image conversion
then proceeds with the uncompressed original and still succeeds. -/
theorem c10_compress_failure_returns_original (ok : String → Nat → Bool)
    (p q : String) (fs : List String) (out : Option String)
    (h : ∀ n, ok p n = false) :
    compress_image ok p q = p ∧
    (fs.contains p = true → is_supported_format p = true →
      convert_single_image ok true fs p out (some q) =
        (.ok (out.getD (base_name p ++ ".pdf")),
         out.getD (base_name p ++ ".pdf") :: fs)) := by
  have hc : compress_image ok p q = p := by
    unfold compress_image
    simp [h]
  refine ⟨hc, ?_⟩
  intro hmem hfmt
  unfold convert_single_image
  simp [hmem, hfmt, hc]
  exact List.mem_of_elem_eq_true hmem

/-- Witness for C10: a compression oracle that always raises on "img.png";
conversion falls back to the original and produces "img.pdf". -/
theorem c10_compress_failure_returns_original_witness :
    compress_image (fun _ _ => false) "img.png" "medium" = "img.png" ∧
    convert_single_image (fun _ _ => false) true ["img.png"] "img.png" none
        (some "medium") =
      (.ok "img.pdf", ["img.pdf", "img.png"]) :=
  ⟨(c10_compress_failure_returns_original (fun _ _ => false) "img.png" "medium"
      ["img.png"] none (fun _ => rfl)).1,
   by
    have h := (c10_compress_failure_returns_original (fun _ _ => false) "img.png"
      "medium" ["img.png"] none (fun _ => rfl)).2 (by decide) (by decide)
    simpa using h⟩

/-- C4 counterexample: converting the unsupported file "doc.xyz" yields the
failure message "Unsupported image format: doc.xyz", which names the file but
does not enumerate a single one of the supported image extensions — the
claim that the message enumerates them is false at this input. -/
theorem c4_counterexample :
    convert_single_image (fun _ _ => false) true ["doc.xyz"] "doc.xyz" none none =
      (.error "Unsupported image format: doc.xyz", ["doc.xyz"]) ∧
    ¬ ∀ ext ∈ SUPPORTED_FORMATS,
        strContains "Unsupported image format: doc.xyz".data ext.data = true := by
  constructor
  · rfl
  · intro hall
    have := hall ".jpg" (by decide)
    simp [strContains] at this

/-- C4 amended: converting a single file whose extension is outside the
supported image-format set creates no output file (the filesystem is returned
unchanged) and yields a failure result whose message is
"Unsupported image format: " followed by the offending path — it identifies
the file but does not enumerate the supported extensions. -/
theorem c4_unsupported_no_output (ok : String → Nat → Bool) (writeOk : Bool)
    (fs : List String) (image_path : String) (out : Option String)
    (compress : Option String)
    (hmem : fs.contains image_path = true)
    (hfmt : is_supported_format image_path = false) :
    convert_single_image ok writeOk fs image_path out compress =
      (.error ("Unsupported image format: " ++ image_path), fs) := by
  have hmem' : image_path ∈ fs := List.mem_of_elem_eq_true hmem
  unfold convert_single_image
  simp [hmem', hfmt]

/-- Witness for C4 at the concrete unsupported file "doc.xyz". -/
theorem c4_unsupported_no_output_witness :
    (["doc.xyz"] : List String).contains "doc.xyz" = true ∧
    is_supported_format "doc.xyz" = false ∧
    convert_single_image (fun _ _ => true) true ["doc.xyz"] "doc.xyz" none
        (some "medium") =
      (.error ("Unsupported image format: " ++ "doc.xyz"), ["doc.xyz"]) :=
  ⟨by decide, by decide,
    c4_unsupported_no_output (fun _ _ => true) true ["doc.xyz"] "doc.xyz" none
      (some "medium") (by decide) (by decide)⟩

/-- C5: merging an empty list of PDFs is a validation error, and merging a
non-empty list produces exactly one output whose pages are the concatenation
of the inputs' pages in list order, so its page count is the sum of the
inputs' page counts. -/
theorem c5_merge_concatenates (readPdf : String → List Page)
    (ps : List String) (out : Option String) (h : ps ≠ []) :
    merge_pdfs readPdf [] out = .error "No PDF files provided" ∧
    merge_pdfs readPdf ps out = .ok (out.getD "merged.pdf", (ps.map readPdf).flatten) ∧
    ((ps.map readPdf).flatten).length = (ps.map (fun p => (readPdf p).length)).sum := by
  refine ⟨rfl, ?_, ?_⟩
  · unfold merge_pdfs
    rw [if_neg (by simpa [List.isEmpty_iff] using h)]
    rw [foldl_append_flat]
    rfl
  · rw [List.length_flatten, List.map_map]
    rfl

/-- Witness for C5: three PDFs with page counts [2,3,1] merge into one
6-page output whose pages are concatenated in input order. -/
theorem c5_merge_concatenates_witness :
    merge_pdfs
        (fun p => if p == "a" then [0, 1] else if p == "b" then [2, 3, 4] else [5])
        ["a", "b", "c"] none =
      .ok ("merged.pdf", [0, 1, 2, 3, 4, 5]) ∧
    ([0, 1, 2, 3, 4, 5] : List Page).length = 2 + 3 + 1 :=
  ⟨(c5_merge_concatenates
      (fun p => if p == "a" then [0, 1] else if p == "b" then [2, 3, 4] else [5])
      ["a", "b", "c"] none (by decide)).2.1,
   by decide⟩

/-- C7: splitting with no explicit ranges produces exactly one single-page
output per page, numbered by 1-based page position in page order, and raises
no error. -/
theorem c7_split_per_page (pages : List Page) (out_pre : String) :
    (split_pdf pages out_pre none).2 = none ∧
    (split_pdf pages out_pre none).1.length = pages.length ∧
    ∀ i, i < pages.length →
      (split_pdf pages out_pre none).1[i]? =
        some (out_pre ++ "_page_" ++ toString (i + 1) ++ ".pdf", [pages.getD i 0]) := by
  have hper : split_per_page pages out_pre =
      (List.range pages.length).map
        (fun i => (out_pre ++ "_page_" ++ toString (i + 1) ++ ".pdf", [pages.getD i 0])) := by
    unfold split_per_page
    rw [foldl_append_singleton]
    rfl
  refine ⟨rfl, ?_, ?_⟩
  · show (split_per_page pages out_pre).length = pages.length
    rw [hper, List.length_map, List.length_range]
  · intro i hi
    show (split_per_page pages out_pre)[i]? = _
    rw [hper, List.getElem?_map, List.getElem?_range hi]
    rfl

/-- Witness for C7: a 5-page PDF yields exactly 5 outputs with no error, the
last one being the single page 5 under the name "split_page_5.pdf". -/
theorem c7_split_per_page_witness :
    (split_pdf [10, 20, 30, 40, 50] "split" none).2 = none ∧
    (split_pdf [10, 20, 30, 40, 50] "split" none).1.length = 5 ∧
    (split_pdf [10, 20, 30, 40, 50] "split" none).1[4]? =
      some ("split_page_5.pdf", [50]) :=
  ⟨(c7_split_per_page [10, 20, 30, 40, 50] "split").1,
   (c7_split_per_page [10, 20, 30, 40, 50] "split").2.1,
   by
    have h := (c7_split_per_page [10, 20, 30, 40, 50] "split").2.2 4 (by decide)
    simpa using h⟩

/-- The explicit-ranges loop writes one output per valid range until the
first invalid range, where it stops with the `ValueError` message; the
outputs accumulated so far are kept. -/
theorem split_ranges_stops_at_invalid (pages : List Page) (out_pre : String)
    (s e : Int) :
    ∀ (valids : List (Int × Int)) (rest : List (Int × Int))
      (acc : List (String × List Page)),
      (∀ p ∈ valids, 1 ≤ p.1 ∧ p.1 ≤ p.2 ∧ p.2 ≤ (pages.length : Int)) →
      (s < 1 ∨ (pages.length : Int) < e ∨ e < s) →
      split_ranges pages out_pre (valids ++ (s, e) :: rest) acc =
        (acc ++ valids.map
            (fun p => (split_range_name out_pre p.1 p.2, range_pages pages p.1 p.2)),
         some ("Invalid page range: " ++ toString s ++ "-" ++ toString e
            ++ " (total pages: " ++ toString pages.length ++ ")")) := by
  intro valids
  induction valids with
  | nil =>
    intro rest acc _ hbad
    rw [List.nil_append, split_ranges]
    rw [if_pos]
    · simp
    · simp only [Bool.or_eq_true, decide_eq_true_eq]
      tauto
  | cons hd tl ih =>
    intro rest acc hv hbad
    have hhd := hv hd (List.mem_cons_self hd tl)
    rw [List.cons_append, split_ranges]
    rw [if_neg]
    · rw [ih rest _ (fun p hp => hv p (List.mem_cons_of_mem hd hp)) hbad]
      simp
    · simp only [Bool.or_eq_true, decide_eq_true_eq, not_or, not_lt]
      exact ⟨⟨hhd.1, hhd.2.2⟩, hhd.2.1⟩

/-- C6: splitting with explicit 1-based inclusive ranges checks each range in
order against `1 ≤ start ≤ end ≤ totalPages`; the first violating range
raises a `ValueError` whose message carries the offending range and the true
page count, and the outputs already written for the prior valid ranges in
the same call remain. -/
theorem c6_split_invalid_range (pages : List Page) (out_pre : String)
    (valids : List (Int × Int)) (s e : Int) (rest : List (Int × Int))
    (hv : ∀ p ∈ valids, 1 ≤ p.1 ∧ p.1 ≤ p.2 ∧ p.2 ≤ (pages.length : Int))
    (hbad : s < 1 ∨ (pages.length : Int) < e ∨ e < s) :
    split_pdf pages out_pre (some (valids ++ (s, e) :: rest)) =
      (valids.map
          (fun p => (split_range_name out_pre p.1 p.2, range_pages pages p.1 p.2)),
       some ("Invalid page range: " ++ toString s ++ "-" ++ toString e
          ++ " (total pages: " ++ toString pages.length ++ ")")) := by
  have hne : (valids ++ (s, e) :: rest).isEmpty = false := by
    cases valids <;> rfl
  have hred : split_pdf pages out_pre (some (valids ++ (s, e) :: rest)) =
      split_ranges pages out_pre (valids ++ (s, e) :: rest) [] := by
    simp [split_pdf, hne]
  rw [hred]
  simpa using split_ranges_stops_at_invalid pages out_pre s e valids rest []
    hv hbad

/-- Witness for C6: splitting a 5-page PDF with ranges [(1,2),(2,10)] writes
the output for the valid range (1,2), then raises on (2,10) citing the true
page count 5. -/
theorem c6_split_invalid_range_witness :
    split_pdf [1, 2, 3, 4, 5] "split" (some [(1, 2), (2, 10)]) =
      ([("split_1-2.pdf", [1, 2])],
       some "Invalid page range: 2-10 (total pages: 5)") := by
  have h := c6_split_invalid_range [1, 2, 3, 4, 5] "split" [(1, 2)] 2 10 []
    (by decide) (by decide)
  simpa using h

/-- C3 (code bug): a multi-file conversion of ["a.jpg", "b.jpg"] with MEDIUM
compression, in which the compression of "a.jpg" raises (so `compress_image`
falls back to the original path) while the compression of "b.jpg" and the
PDF write succeed. The cleanup pass compares each working path against the
stale loop variable `img_path` — the LAST input — instead of the file's own
original, so it deletes the original input "a.jpg" even though the
conversion succeeded; the compressed intermediate of "b.jpg" is deleted as
intended. -/
theorem c3_cleanup_deletes_original_input :
    ("a.jpg" : String) ∈ (["a.jpg", "b.jpg"] : List String) ∧
    (convert_multiple_images (fun p _ => p == "b.jpg") true ["a.jpg", "b.jpg"]
        ["a.jpg", "b.jpg"] none (some "medium")).1 = .ok "combined_images.pdf" ∧
    (convert_multiple_images (fun p _ => p == "b.jpg") true ["a.jpg", "b.jpg"]
        ["a.jpg", "b.jpg"] none (some "medium")).2 = ["combined_images.pdf", "b.jpg"] ∧
    ("a.jpg" : String) ∉
      (convert_multiple_images (fun p _ => p == "b.jpg") true ["a.jpg", "b.jpg"]
        ["a.jpg", "b.jpg"] none (some "medium")).2 := by
  refine ⟨by decide, rfl, rfl, by decide⟩

end Doc2Pdf
